import Mathlib

/-!
Shallow embedding of the warehouse-network-optimizer front end
(`src/app.py` of the repository).  The app reads a demand CSV, parses
free-text coordinate lists, bundles cost parameters, invokes the
optimization engine, and builds lane-level export records (outbound,
inbound, transfer) from the engine's result.

Numbers are modelled as exact rationals (`Rat`); Python `float` parsing
and the haversine distance routine (which live outside `src/`) enter the
embedding as explicit function parameters, so every theorem quantifies
over their behaviour.
-/

namespace Chariot

/-- A row of the demand CSV after `pd.read_csv`: the three columns the app
uses, each possibly missing (NaN), mirroring `df.dropna(subset=[...])`'s
view of a row (`src/app.py` line 159-160). -/
structure DemandRow where
  Longitude : Option Rat
  Latitude : Option Rat
  DemandLbs : Option Rat
deriving DecidableEq, Repr

/-- `df.dropna(subset=["Longitude","Latitude","DemandLbs"])`
(`src/app.py` line 160): keep exactly the rows where all three fields are
present, in order and unchanged. -/
def dropnaDemand (rows : List DemandRow) : List DemandRow :=
  rows.filter fun r => r.Longitude.isSome && r.Latitude.isSome && r.DemandLbs.isSome

/-- `k_vals` construction (`src/app.py` lines 152-155):
`list(range(k_rng[0], k_rng[1]+1))` in range mode, `[k_fixed]` otherwise. -/
def kVals (autoK : Bool) (kmin kmax kfixed : Nat) : List Nat :=
  if autoK then List.range' kmin (kmax + 1 - kmin) else [kfixed]

/-- Splitting a character list on a separator, keeping empty fields:
the semantics of Python's `str.split(sep)` for a one-character `sep`. -/
def splitOnChar (sep : Char) : List Char → List (List Char)
  | [] => [[]]
  | c :: rest =>
    if c = sep then [] :: splitOnChar sep rest
    else
      match splitOnChar sep rest with
      | [] => [[c]]
      | f :: fs => (c :: f) :: fs

/-- Python `ln.split(",")` (`src/app.py` lines 84 and 102). -/
def pySplitComma (s : String) : List String :=
  (splitOnChar ',' s.data).map String.mk

/-- Parsing of one line of the fixed-warehouse text area
(`src/app.py` lines 82-87): `lon, lat = map(float, ln.split(","))`
succeeds exactly when the line splits into two fields both accepted by
`float`; any exception skips the line.  `pf` is the Python `float`
parser, supplied as a parameter. -/
def parseFixedLine (pf : String → Option Rat) (ln : String) : Option (Rat × Rat) :=
  match (pySplitComma ln).mapM pf with
  | some [lon, lat] => some (lon, lat)
  | _ => none

/-- The `fixed_centers` accumulation loop (`src/app.py` lines 81-88):
each parse failure hits `continue`, successes are appended in order. -/
def parseFixedLines (pf : String → Option Rat) (lns : List String) : List (Rat × Rat) :=
  lns.filterMap (parseFixedLine pf)

/-- Parsing of one line of the inbound-supply text area
(`src/app.py` lines 101-105): `lon, lat, pct = map(float, ln.split(","))`
and the stored record is `[lon, lat, pct/100.0]`. -/
def parseSupplyLine (pf : String → Option Rat) (ln : String) : Option (Rat × Rat × Rat) :=
  match (pySplitComma ln).mapM pf with
  | some [lon, lat, pct] => some (lon, lat, pct / 100)
  | _ => none

/-- The `inbound_pts` accumulation loop (`src/app.py` lines 100-106). -/
def parseSupplyLines (pf : String → Option Rat) (lns : List String) : List (Rat × Rat × Rat) :=
  lns.filterMap (parseSupplyLine pf)

/-- A concrete decimal parser (sign, digits, optional fractional part),
a fragment of Python's `float` used to instantiate `pf` in witnesses. -/
def digitsVal (cs : List Char) : Option Nat :=
  cs.foldlM (fun acc c => if c.isDigit then some (acc * 10 + (c.toNat - 48)) else none) 0

/-- See `digitsVal`: parses e.g. `"12.5"` or `"-3"` to a rational. -/
def parseDec (s : String) : Option Rat :=
  let core : List Char → Option Rat := fun cs =>
    match splitOnChar '.' cs with
    | [w] =>
        if w.isEmpty then none else (digitsVal w).map (fun n => (n : Rat))
    | [w, f] =>
        if w.isEmpty || f.isEmpty then none
        else match digitsVal w, digitsVal f with
          | some n, some m => some ((n : Rat) + (m : Rat) / ((10 : Rat) ^ f.length))
          | _, _ => none
    | _ => none
  match s.data with
  | '-' :: rest => (core rest).map (fun q => -q)
  | cs => core cs

/-- One lane-level export record (`src/app.py` lines 209-249): every
appended dictionary has exactly these keys. -/
structure Lane where
  lane_type : String
  origin_lon : Rat
  origin_lat : Rat
  dest_lon : Rat
  dest_lat : Rat
  distance_mi : Rat
  weight_lbs : Rat
  rate : Rat
  cost : Rat
deriving DecidableEq, Repr

/-- One row of `res["assigned"]` as consumed by the outbound block
(`src/app.py` lines 211-220): demand coordinates, weight, assigned
warehouse index and assignment distance. -/
structure AssignedRow where
  Longitude : Rat
  Latitude : Rat
  DemandLbs : Rat
  DistMi : Rat
  Warehouse : Nat
deriving DecidableEq, Repr

/-- The outbound block (`src/app.py` lines 211-220): one lane per
assignment row; `res["centers"][int(r.Warehouse)]` raises `IndexError`
(here: `none`) on an out-of-range warehouse index. -/
def outboundLanes (rate_out : Rat) (centers : List (Rat × Rat)) :
    List AssignedRow → Option (List Lane)
  | [] => some []
  | r :: rs => do
      let w ← centers[r.Warehouse]?
      let rest ← outboundLanes rate_out centers rs
      pure ({ lane_type := "outbound",
              origin_lon := w.1, origin_lat := w.2,
              dest_lon := r.Longitude, dest_lat := r.Latitude,
              distance_mi := r.DistMi, weight_lbs := r.DemandLbs,
              rate := rate_out,
              cost := r.DemandLbs * r.DistMi * rate_out } :: rest)

/-- One configured transfer node of `res["rdc_list"]`
(`src/app.py` lines 186-188): coordinates plus the `is_sdc` flag. -/
structure TransferNode where
  coords : Rat × Rat
  is_sdc : Bool
deriving DecidableEq, Repr

/-- `rdc_only=[r for r in res["rdc_list"] if not r["is_sdc"]]`
(`src/app.py` line 236). -/
def rdcOnly (rdc_list : List TransferNode) : List TransferNode :=
  rdc_list.filter fun r => !r.is_sdc

/-- `share=1.0/len(rdc_only) if rdc_only else 0` (`src/app.py` line 237). -/
def transferShare (rdc_list : List TransferNode) : Rat :=
  if (rdcOnly rdc_list).isEmpty then 0 else 1 / ((rdcOnly rdc_list).length : Rat)

/-- The transfer block (`src/app.py` lines 235-249), guarded by
`if res.get("rdc_list"):`.  `distFn` stands for
`np.round(haversine(...)*ROAD_FACTOR, 6)` (`utils.py` is outside `src/`). -/
def transferLanes (trans_rate : Rat) (distFn : Rat × Rat → Rat × Rat → Rat)
    (rdc_list : List TransferNode) (centers : List (Rat × Rat))
    (demand_per_wh : List Rat) : List Lane :=
  if rdc_list.isEmpty then []
  else
    (rdcOnly rdc_list).flatMap fun rdc =>
      (centers.zip demand_per_wh).map fun p =>
        let dist := distFn rdc.coords p.1
        let wt := p.2 * transferShare rdc_list
        { lane_type := "transfer",
          origin_lon := rdc.coords.1, origin_lat := rdc.coords.2,
          dest_lon := p.1.1, dest_lat := p.1.2,
          distance_mi := dist, weight_lbs := wt,
          rate := trans_rate, cost := wt * dist * trans_rate }

/-- A dynamically-typed Python value, as needed to model the tuple
unpacking in the inbound block's loop header (`src/app.py` line 224). -/
inductive PyVal where
  | int (n : Nat)
  | flt (q : Rat)
  | pair (a b : PyVal)
deriving DecidableEq, Repr

/-- Python `zip(xs, ys)`: a list of 2-tuples. -/
def pyZip (xs ys : List PyVal) : List PyVal :=
  (xs.zip ys).map fun p => .pair p.1 p.2

/-- Python `enumerate(xs)`: pairs each element with its `int` index. -/
def pyEnumerate (xs : List PyVal) : List PyVal :=
  xs.enum.map fun p => .pair (.int p.1) p.2

/-- `res["centers"]` as Python values: 2-tuples of floats. -/
def pyCenters (centers : List (Rat × Rat)) : List PyVal :=
  centers.map fun c => .pair (.flt c.1) (.flt c.2)

/-- `res["demand_per_wh"]` as Python values: floats. -/
def pyDemands (demand_per_wh : List Rat) : List PyVal :=
  demand_per_wh.map .flt

/-- Unpacking one loop item against the pattern
`(widx,(wlon,wlat)),wh_dem` of `src/app.py` line 224: the item must be a
2-tuple whose first component is itself a 2-tuple `(int, (float, float))`
and whose second component is a float.  Unpacking an `int` against the
inner tuple pattern raises
`TypeError: cannot unpack non-iterable int object`. -/
def unpackInboundItem : PyVal → Except String (Nat × (Rat × Rat) × Rat)
  | .pair (.pair (.int widx) (.pair (.flt wlon) (.flt wlat))) (.flt wh_dem) =>
      .ok (widx, (wlon, wlat), wh_dem)
  | .pair (.int _) _ =>
      .error "TypeError: cannot unpack non-iterable int object"
  | _ => .error "TypeError: unpacking failed"

/-- The inbound block (`src/app.py` lines 222-233), as written: for each
parsed supply point `(slon, slat, pct)` it iterates
`enumerate(zip(res["centers"], res["demand_per_wh"]))` and unpacks each
item with `unpackInboundItem`; the first failure aborts with that error,
exactly as the Python `TypeError` would propagate. -/
def inboundLanes (in_rate : Rat) (distFn : Rat × Rat → Rat × Rat → Rat)
    (inbound_on : Bool) (inbound_pts : List (Rat × Rat × Rat))
    (centers : List (Rat × Rat)) (demand_per_wh : List Rat) :
    Except String (List Lane) :=
  if inbound_on && !inbound_pts.isEmpty then
    (inbound_pts.mapM fun (sp : Rat × Rat × Rat) =>
      (pyEnumerate (pyZip (pyCenters centers) (pyDemands demand_per_wh))).mapM
        fun item => do
          let (_widx, wc, wh_dem) ← unpackInboundItem item
          let dist := distFn (sp.1, sp.2.1) wc
          let wt := wh_dem * sp.2.2
          pure ({ lane_type := "inbound",
                  origin_lon := sp.1, origin_lat := sp.2.1,
                  dest_lon := wc.1, dest_lat := wc.2,
                  distance_mi := dist, weight_lbs := wt,
                  rate := in_rate,
                  cost := wt * dist * in_rate } : Lane)).map List.flatten
  else .ok []

/-- The five cost fields of the engine result consumed at
`src/app.py` lines 198-202 (`res["out_cost"]`, `res["in_cost"]`,
`res["trans_cost"]`, `res["wh_cost"]`, `res["total_cost"]`): each is an
individually retrievable field. -/
structure CostBreakdown where
  out_cost : Rat
  in_cost : Rat
  trans_cost : Rat
  wh_cost : Rat
  total_cost : Rat
deriving DecidableEq, Repr

/-- Modelled from the spec: the cost model of the optimization engine
(`optimization.py`, which is not among the exported sources; only its
result fields are consumed in `src/app.py`).  Per spec §4.5: outbound,
inbound, transfer and facility components are the stated sums, and total
cost is the sum of the four components. -/
def costModel (rate_out in_rate trans_rate fixed_cost sqft_per_lb cost_sqft : Rat)
    (distFn : Rat × Rat → Rat × Rat → Rat)
    (assigned : List AssignedRow) (inbound_pts : List (Rat × Rat × Rat))
    (rdc_list : List TransferNode) (centers : List (Rat × Rat))
    (demand_per_wh : List Rat) : CostBreakdown :=
  let outC := (assigned.map fun r => r.DemandLbs * r.DistMi * rate_out).sum
  let inC := (inbound_pts.map fun sp =>
    ((centers.zip demand_per_wh).map fun p =>
      p.2 * sp.2.2 * distFn (sp.1, sp.2.1) p.1 * in_rate).sum).sum
  let trC := ((rdcOnly rdc_list).map fun rdc =>
    ((centers.zip demand_per_wh).map fun p =>
      p.2 * transferShare rdc_list * distFn rdc.coords p.1 * trans_rate).sum).sum
  let whC := (demand_per_wh.map fun d => fixed_cost + d * sqft_per_lb * cost_sqft).sum
  { out_cost := outC, in_cost := inC, trans_cost := trC, wh_cost := whC,
    total_cost := outC + inC + trC + whC }

end Chariot

namespace Chariot

/-- C6: a demand row survives `dropna` iff it was in the input and has all
three of Longitude, Latitude, DemandLbs present; the surviving rows are a
sublist of the input (order preserved, records unchanged). -/
theorem dropna_keeps_exactly_complete_rows (rows : List DemandRow) (r : DemandRow) :
    (r ∈ dropnaDemand rows ↔
      (r ∈ rows ∧ r.Longitude.isSome ∧ r.Latitude.isSome ∧ r.DemandLbs.isSome)) ∧
    (dropnaDemand rows).Sublist rows := by
  constructor
  · simp [dropnaDemand, List.mem_filter, and_assoc]
  · exact List.filter_sublist rows

/-- C8: membership in the `k_vals` list: in range mode it is exactly the
integers from min to max inclusive, otherwise exactly the fixed count. -/
theorem kVals_membership (autoK : Bool) (kmin kmax kfixed k : Nat) :
    k ∈ kVals autoK kmin kmax kfixed ↔
      (if autoK then kmin ≤ k ∧ k ≤ kmax else k = kfixed) := by
  cases autoK with
  | false => simp [kVals]
  | true =>
    simp only [kVals, if_pos, List.mem_range']
    constructor
    · rintro ⟨i, hi, rfl⟩
      omega
    · rintro ⟨h1, h2⟩
      exact ⟨k - kmin, by omega, by omega⟩

/-- Helper: length of a flatMap whose pieces all have the same length. -/
theorem length_flatMap_const {α β : Type} (l : List α) (f : α → List β) (k : Nat)
    (h : ∀ a ∈ l, (f a).length = k) : (l.flatMap f).length = l.length * k := by
  induction l with
  | nil => simp
  | cons a as ih =>
      have h1 := h a (List.mem_cons_self a as)
      have h2 : (as.flatMap f).length = as.length * k :=
        ih fun x hx => h x (List.mem_cons_of_mem _ hx)
      simp only [List.flatMap_cons, List.length_append, h1, h2, List.length_cons]
      ring

/-- Claim C2: for every evaluated configuration, the result's total cost
equals the sum of its outbound, inbound, transfer and facility
components, each of which (and the total) is an individually
retrievable field of the cost breakdown. -/
theorem total_cost_is_sum_of_components
    (rate_out in_rate trans_rate fixed_cost sqft_per_lb cost_sqft : Rat)
    (distFn : Rat × Rat → Rat × Rat → Rat)
    (assigned : List AssignedRow) (inbound_pts : List (Rat × Rat × Rat))
    (rdc_list : List TransferNode) (centers : List (Rat × Rat))
    (demand_per_wh : List Rat) :
    (costModel rate_out in_rate trans_rate fixed_cost sqft_per_lb cost_sqft
        distFn assigned inbound_pts rdc_list centers demand_per_wh).total_cost
      = (costModel rate_out in_rate trans_rate fixed_cost sqft_per_lb cost_sqft
            distFn assigned inbound_pts rdc_list centers demand_per_wh).out_cost
        + (costModel rate_out in_rate trans_rate fixed_cost sqft_per_lb cost_sqft
            distFn assigned inbound_pts rdc_list centers demand_per_wh).in_cost
        + (costModel rate_out in_rate trans_rate fixed_cost sqft_per_lb cost_sqft
            distFn assigned inbound_pts rdc_list centers demand_per_wh).trans_cost
        + (costModel rate_out in_rate trans_rate fixed_cost sqft_per_lb cost_sqft
            distFn assigned inbound_pts rdc_list centers demand_per_wh).wh_cost := rfl

/-- Claim C4: with every assignment's warehouse index in range, the
outbound block yields exactly one lane per assignment record, in order,
with origin the assigned warehouse's coordinates, destination the demand
point's coordinates, the assignment's distance and weight, the outbound
rate, and cost = weight x distance x rate. -/
theorem outbound_lanes_one_per_assignment (rate_out : Rat)
    (centers : List (Rat × Rat)) (assigned : List AssignedRow)
    (h : ∀ r ∈ assigned, r.Warehouse < centers.length) :
    outboundLanes rate_out centers assigned = some (assigned.map fun r =>
      { lane_type := "outbound",
        origin_lon := (centers.getD r.Warehouse (0, 0)).1,
        origin_lat := (centers.getD r.Warehouse (0, 0)).2,
        dest_lon := r.Longitude, dest_lat := r.Latitude,
        distance_mi := r.DistMi, weight_lbs := r.DemandLbs,
        rate := rate_out,
        cost := r.DemandLbs * r.DistMi * rate_out }) := by
  induction assigned with
  | nil => rfl
  | cons r rs ih =>
      have hr : r.Warehouse < centers.length := h r (List.mem_cons_self r rs)
      have hrs := ih fun x hx => h x (List.mem_cons_of_mem _ hx)
      have hget : centers[r.Warehouse]? = some (centers.getD r.Warehouse (0, 0)) := by
        rw [List.getD_eq_getElem?_getD, List.getElem?_eq_getElem hr]
        rfl
      simp only [outboundLanes, hget, hrs, Option.some_bind, List.map_cons]
      rfl

/-- Witness for C4 at a concrete input. -/
theorem outbound_lanes_one_per_assignment_witness :
    outboundLanes 2 [((5 : Rat), (6 : Rat))]
        [{ Longitude := 1, Latitude := 2, DemandLbs := 3, DistMi := 4, Warehouse := 0 }]
      = some [{ lane_type := "outbound", origin_lon := 5, origin_lat := 6,
                dest_lon := 1, dest_lat := 2, distance_mi := 4, weight_lbs := 3,
                rate := 2, cost := 3 * 4 * 2 }] :=
  outbound_lanes_one_per_assignment 2 [(5, 6)]
    [{ Longitude := 1, Latitude := 2, DemandLbs := 3, DistMi := 4, Warehouse := 0 }]
    (by decide)

/-- Claim C1: with at least one configured transfer node and as many
demand totals as warehouses, the transfer block produces exactly one
lane per (non-SDC node, warehouse) pair — `(#non-SDC) * (#warehouses)`
lanes in total — each lane weighing the destination warehouse's assigned
demand divided by the number of non-SDC nodes, and every lane's origin
is the coordinate pair of a non-SDC node. -/
theorem transfer_lanes_equal_share (trans_rate : Rat)
    (distFn : Rat × Rat → Rat × Rat → Rat)
    (rdc_list : List TransferNode) (centers : List (Rat × Rat))
    (demand_per_wh : List Rat)
    (hne : rdc_list ≠ []) (hlen : demand_per_wh.length = centers.length) :
    (transferLanes trans_rate distFn rdc_list centers demand_per_wh).length
        = (rdcOnly rdc_list).length * centers.length ∧
    transferLanes trans_rate distFn rdc_list centers demand_per_wh
        = ((rdcOnly rdc_list).flatMap fun rdc =>
            (centers.zip demand_per_wh).map fun p =>
              { lane_type := "transfer",
                origin_lon := rdc.coords.1, origin_lat := rdc.coords.2,
                dest_lon := p.1.1, dest_lat := p.1.2,
                distance_mi := distFn rdc.coords p.1,
                weight_lbs := p.2 / ((rdcOnly rdc_list).length : Rat),
                rate := trans_rate,
                cost := p.2 / ((rdcOnly rdc_list).length : Rat)
                          * distFn rdc.coords p.1 * trans_rate }) ∧
    ∀ l ∈ transferLanes trans_rate distFn rdc_list centers demand_per_wh,
      ∃ node ∈ rdc_list, node.is_sdc = false
        ∧ (l.origin_lon, l.origin_lat) = node.coords := by
  have hguard : rdc_list.isEmpty = false := by
    cases rdc_list with
    | nil => exact absurd rfl hne
    | cons a as => rfl
  have hunfold : transferLanes trans_rate distFn rdc_list centers demand_per_wh
      = (rdcOnly rdc_list).flatMap fun rdc =>
          (centers.zip demand_per_wh).map fun p =>
            { lane_type := "transfer",
              origin_lon := rdc.coords.1, origin_lat := rdc.coords.2,
              dest_lon := p.1.1, dest_lat := p.1.2,
              distance_mi := distFn rdc.coords p.1,
              weight_lbs := p.2 * transferShare rdc_list,
              rate := trans_rate,
              cost := p.2 * transferShare rdc_list
                        * distFn rdc.coords p.1 * trans_rate } := by
    simp [transferLanes, hguard]
  have heq : transferLanes trans_rate distFn rdc_list centers demand_per_wh
      = (rdcOnly rdc_list).flatMap fun rdc =>
          (centers.zip demand_per_wh).map fun p =>
            { lane_type := "transfer",
              origin_lon := rdc.coords.1, origin_lat := rdc.coords.2,
              dest_lon := p.1.1, dest_lat := p.1.2,
              distance_mi := distFn rdc.coords p.1,
              weight_lbs := p.2 / ((rdcOnly rdc_list).length : Rat),
              rate := trans_rate,
              cost := p.2 / ((rdcOnly rdc_list).length : Rat)
                        * distFn rdc.coords p.1 * trans_rate } := by
    rw [hunfold]
    by_cases hro : rdcOnly rdc_list = []
    · rw [hro]
      simp
    · have hsh : transferShare rdc_list = 1 / ((rdcOnly rdc_list).length : Rat) := by
        simp [transferShare, hro]
      simp [hsh, div_eq_mul_inv]
  refine ⟨?_, heq, ?_⟩
  · rw [heq]
    rw [length_flatMap_const (k := centers.length)]
    intro a _
    simp [List.length_zip, hlen]
  · intro l hl
    rw [heq] at hl
    rw [List.mem_flatMap] at hl
    obtain ⟨rdc, hrdc, hml⟩ := hl
    rw [List.mem_map] at hml
    obtain ⟨p, _, rfl⟩ := hml
    rw [rdcOnly, List.mem_filter] at hrdc
    exact ⟨rdc, hrdc.1, by simpa using hrdc.2, rfl⟩

/-- Witness for C1 at a concrete input: one RDC node, one warehouse. -/
theorem transfer_lanes_equal_share_witness :
    (transferLanes 3 (fun _ _ => 2) [⟨(0, 0), false⟩] [(1, 1)] [10]).length
      = (rdcOnly [⟨(0, 0), false⟩]).length * 1 :=
  (transfer_lanes_equal_share 3 (fun _ _ => 2) [⟨(0, 0), false⟩] [(1, 1)] [10]
    (by decide) (by decide)).1

/-- Claim C10: when every configured transfer node is an SDC, the guard
sets the per-node share to 0 (no division by zero) and the transfer
block emits no lanes. -/
theorem all_sdc_share_zero_no_lanes (trans_rate : Rat)
    (distFn : Rat × Rat → Rat × Rat → Rat)
    (rdc_list : List TransferNode) (centers : List (Rat × Rat))
    (demand_per_wh : List Rat)
    (h : ∀ r ∈ rdc_list, r.is_sdc = true) :
    transferShare rdc_list = 0 ∧
    transferLanes trans_rate distFn rdc_list centers demand_per_wh = [] := by
  have hro : rdcOnly rdc_list = [] := by
    rw [rdcOnly, List.filter_eq_nil_iff]
    intro a ha
    simp [h a ha]
  refine ⟨by simp [transferShare, hro], ?_⟩
  by_cases hE : rdc_list.isEmpty <;> simp [transferLanes, hE, hro]

/-- Witness for C10 at a concrete input: a single SDC node. -/
theorem all_sdc_share_zero_no_lanes_witness :
    transferShare [⟨(0, 0), true⟩] = 0 ∧
    transferLanes 1 (fun _ _ => 1) [⟨(0, 0), true⟩] [(1, 1)] [5] = [] :=
  all_sdc_share_zero_no_lanes 1 (fun _ _ => 1) [⟨(0, 0), true⟩] [(1, 1)] [5]
    (by decide)

/-- Claim C3 (code bug): with inbound flow enabled, one parsed supply
point and one warehouse, the inbound block of the lane export fails with
a TypeError — the loop header of `src/app.py` line 224 unpacks each
`enumerate` item's integer index against the tuple pattern
`(widx,(wlon,wlat))` — instead of producing one lane per
(supply point, warehouse) pair. -/
theorem inbound_lanes_type_error :
    inboundLanes (3 / 10) (fun _ _ => 10) true [(0, 0, 1 / 2)] [(1, 1)] [100]
      = .error "TypeError: cannot unpack non-iterable int object" := by
  rfl

/-- Claim C5: whenever a supply-point line splits into three fields that
all parse as floats `lon`, `lat`, `pct`, the stored record is
`(lon, lat, pct / 100)`. -/
theorem supply_fraction_is_pct_div_100 (pf : String → Option Rat)
    (ln : String) (lon lat pct : Rat)
    (h : (pySplitComma ln).mapM pf = some [lon, lat, pct]) :
    parseSupplyLine pf ln = some (lon, lat, pct / 100) := by
  unfold parseSupplyLine
  rw [h]

/-- Witness for C5 at a concrete input. -/
theorem supply_fraction_is_pct_div_100_witness :
    parseSupplyLine parseDec "3,4,50" = some (3, 4, (50 : Rat) / 100) :=
  supply_fraction_is_pct_div_100 parseDec "3,4,50" 3 4 50 (by decide)

/-- Claim C7: a line that fails to parse (as two comma-separated floats
for fixed warehouses, or three for supply points) is individually
skipped: deleting it from the input leaves the parsed list unchanged, so
it contributes nothing and does not affect any other line; no error is
raised (the parsers are total). -/
theorem malformed_lines_skipped (pf : String → Option Rat)
    (l1 l2 m1 m2 : List String) (lnF lnS : String)
    (hf : parseFixedLine pf lnF = none) (hs : parseSupplyLine pf lnS = none) :
    parseFixedLines pf (l1 ++ lnF :: l2) = parseFixedLines pf (l1 ++ l2) ∧
    parseSupplyLines pf (m1 ++ lnS :: m2) = parseSupplyLines pf (m1 ++ m2) := by
  constructor
  · simp [parseFixedLines, List.filterMap_append, List.filterMap_cons, hf]
  · simp [parseSupplyLines, List.filterMap_append, List.filterMap_cons, hs]

/-- Witness for C7 at a concrete input. -/
theorem malformed_lines_skipped_witness :
    parseFixedLines parseDec ["1,2", "oops"] = parseFixedLines parseDec ["1,2"] ∧
    parseSupplyLines parseDec ["1,2,3", "oops"] = parseSupplyLines parseDec ["1,2,3"] :=
  malformed_lines_skipped parseDec ["1,2"] [] ["1,2,3"] [] "oops" "oops"
    (by decide) (by decide)

/-- Claim C9 is false of the code: a demand row with all three fields
present but a negative weight is not rejected — it survives `dropna` and
is passed to the engine. -/
theorem negative_weight_claim_false :
    ¬ ∀ (rows : List DemandRow) (r : DemandRow) (q : Rat),
        r ∈ rows → r.DemandLbs = some q → q < 0 → r ∉ dropnaDemand rows := by
  intro h
  exact h [⟨some 0, some 0, some (-5)⟩] ⟨some 0, some 0, some (-5)⟩ (-5)
    (by decide) rfl (by decide) (by decide)

/-- Claim C9 as amended: a demand row with a negative weight is not
rejected at the boundary; whenever its three fields are present it
passes through `dropna` to the engine unchanged. -/
theorem negative_weight_passed_through (rows : List DemandRow) (r : DemandRow)
    (q : Rat) (hmem : r ∈ rows) (hlon : r.Longitude.isSome)
    (hlat : r.Latitude.isSome) (hw : r.DemandLbs = some q) (hneg : q < 0) :
    r ∈ dropnaDemand rows := by
  rw [dropnaDemand, List.mem_filter]
  exact ⟨hmem, by simp [hlon, hlat, hw]⟩

/-- Witness for the amended C9 at a concrete input. -/
theorem negative_weight_passed_through_witness :
    (⟨some 0, some 0, some (-5)⟩ : DemandRow)
      ∈ dropnaDemand [⟨some 0, some 0, some (-5)⟩] :=
  negative_weight_passed_through [⟨some 0, some 0, some (-5)⟩]
    ⟨some 0, some 0, some (-5)⟩ (-5) (by decide) (by decide) (by decide) rfl
    (by decide)

end Chariot
